import Mathlib

/-!
Verification development for the BigQuery hackathon repository.

The development shallowly embeds the two subsystems the specification
documents: the notebook cell patchers (final_fix.py, fix_sql_syntax.py,
update_to_public_data.py) and the REST orchestration layer
(user-interface/api/main.py).  Pure Python functions become Lean
functions; the external BigQuery engine is an explicit parameter (the
outcome of client.query(...).result(), either a row list or a raised
error message); the try/except blocks become explicit wrapping of an
exception type.  Machine floats carried by score fields are modelled as
rationals: every property proved here depends only on their ordered
field structure, never on rounding.
-/

namespace BigQueryRepo

/-- Boolean test that the first list is an initial segment of the second.
Auxiliary for the Python substring operator. -/
def leadsWith : List Char → List Char → Bool
  | [], _ => true
  | _ :: _, [] => false
  | a :: as, b :: bs => a == b && leadsWith as bs

/-- Boolean substring containment on character lists: true when pat occurs
contiguously somewhere in the second list.  Embeds the Python expression
pat in s on str values. -/
def containsSub (pat : List Char) : List Char → Bool
  | [] => leadsWith pat []
  | c :: rest => leadsWith pat (c :: rest) || containsSub pat rest

/-- Python substring operator: strIn pat s embeds the Python expression
pat in s. -/
def strIn (pat s : String) : Bool := containsSub pat.data s.data

instance {ε α : Type} [DecidableEq ε] [DecidableEq α] :
    DecidableEq (Except ε α) := fun a b =>
  match a, b with
  | .error e1, .error e2 =>
      if h : e1 = e2 then .isTrue (h ▸ rfl)
      else .isFalse (fun hc => h (Except.error.inj hc))
  | .ok v1, .ok v2 =>
      if h : v1 = v2 then .isTrue (h ▸ rfl)
      else .isFalse (fun hc => h (Except.ok.inj hc))
  | .error _, .ok _ => .isFalse (fun hc => Except.noConfusion hc)
  | .ok _, .error _ => .isFalse (fun hc => Except.noConfusion hc)

/-- One notebook cell: the cell_type field, the optional source line list
(the patchers guard on the source key being present), and the remaining
JSON payload (outputs, metadata, ...), which the patchers never touch,
kept opaque as one string. -/
structure Cell where
  cellType : String
  source : Option (List String)
  rest : String
deriving DecidableEq

/-- One notebook document: the cells array plus the remaining top-level
JSON payload (nbformat, metadata, ...), kept opaque. -/
structure Notebook where
  cells : List Cell
  meta : String
deriving DecidableEq

/-- Replacement source written by final_fix.py (the new_source list,
lines 21-53), transcribed byte for byte.  Literal braces are written with
x7b/x7d escapes and apostrophes with x27 escapes; the denoted characters
are exactly those of the Python source. -/
def finalFixTemplate : List String :=
  ["# Setup and Configuration\n",
   "import pandas as pd\n",
   "import numpy as np\n",
   "import json\n",
   "from datetime import datetime, timedelta\n",
   "import warnings\n",
   "warnings.filterwarnings(\x27ignore\x27)\n",
   "\n",
   "# BigQuery setup with service account authentication\n",
   "from google.cloud import bigquery\n",
   "from google.oauth2 import service_account\n",
   "\n",
   "# Path to your service account key\n",
   "key_path = r\"C:\\Users\\msaya\\Downloads\\analog-daylight-469011-e9-b89b0752ca82.json\"\n",
   "\n",
   "print(\"Loading BigQuery credentials...\")\n",
   "\n",
   "# Create credentials object\n",
   "credentials = service_account.Credentials.from_service_account_file(key_path)\n",
   "\n",
   "# Initialize BigQuery client with credentials\n",
   "client = bigquery.Client(credentials=credentials, project=credentials.project_id)\n",
   "\n",
   "project_id = credentials.project_id\n",
   "dataset_id = \x27enterprise_knowledge_ai\x27\n",
   "\n",
   "print(\"BigQuery client initialized successfully!\")\n",
   "print(f\"Project ID: \x7bproject_id\x7d\")\n",
   "print(f\"Dataset: \x7bdataset_id\x7d\")\n",
   "print(f\"Started: \x7bdatetime.now()\x7d\")\n",
   "print(\"BigQuery AI implementation ready!\")"]

/-- Trigger predicate of final_fix.py (line 14-16) on the joined source
text of a cell. -/
def finalFixTrigger (t : String) : Bool :=
  strIn "client = bigquery.Client()" t ||
  strIn "your-bigquery-project-id" t ||
  strIn "import pandas as pd" t

/-- Guard of the final_fix.py loop body for one cell: cell_type is code,
the source key is present, and the joined source text matches the
trigger. -/
def finalFixCellHit (cell : Cell) : Bool :=
  cell.cellType == "code" &&
    (match cell.source with
     | some src => finalFixTrigger (String.join src)
     | none => false)

/-- Loop of final_fix.py (lines 8-57): every hit cell gets its whole
source replaced by the template and is counted; all other cells pass
through untouched.  Returns the new cell list and fixed_count. -/
def finalFixLoop : List Cell → List Cell × Nat
  | [] => ([], 0)
  | c :: cs =>
      let r := finalFixLoop cs
      if finalFixCellHit c then
        ({ c with source := some finalFixTemplate } :: r.1, r.2 + 1)
      else
        (c :: r.1, r.2)

/-- Replacement source written by fix_sql_syntax.py (the new_source list,
lines 18-50), transcribed byte for byte with x7b/x7d brace escapes and
x27 apostrophe escapes. -/
def fixSqlTemplate : List String :=
  ["# Simplified demo query (AI functions replaced with simulated results)\n",
   "demo_query = f\"\"\"\n",
   "SELECT \n",
   "  document_id,\n",
   "  content_type,\n",
   "  department,\n",
   "  business_impact_score,\n",
   "  created_date,\n",
   "  \n",
   "  -- Simulated AI insights\n",
   "  CASE \n",
   "    WHEN content_type = \x27strategic_report\x27 THEN \x27Strategic analysis shows strong growth trajectory\x27\n",
   "    WHEN content_type = \x27customer_feedback\x27 THEN \x27Customer satisfaction high but mobile issues detected\x27\n",
   "    ELSE \x27Technical performance optimized successfully\x27\n",
   "  END as ai_summary\n",
   "  \n",
   "FROM `\x7bproject_id\x7d.\x7bdataset_id\x7d.enterprise_documents`\n",
   "ORDER BY business_impact_score DESC\n",
   "LIMIT 5;\n",
   "\"\"\"\n",
   "\n",
   "print(\"📊 Running demo query...\")\n",
   "results_df = client.query(demo_query).to_dataframe()\n",
   "print(f\"✅ Query completed! Found \x7blen(results_df)\x7d documents\")\n",
   "\n",
   "# Display results\n",
   "for _, row in results_df.iterrows():\n",
   "    print(f\"\\n📄 \x7brow[\x27content_type\x27].upper()\x7d (\x7brow[\x27department\x27]\x7d)\")\n",
   "    print(f\"   📊 Impact Score: \x7brow[\x27business_impact_score\x27]:.2f\x7d\")\n",
   "    print(f\"   📝 AI Summary: \x7brow[\x27ai_summary\x27]\x7d\")\n",
   "    print(f\"   📅 Created: \x7brow[\x27created_date\x27]\x7d\")"]

/-- Trigger predicate of fix_sql_syntax.py (line 14) on the joined source
text of a cell. -/
def fixSqlTrigger (t : String) : Bool :=
  strIn "bigquery-public-data.ml_datasets.gemini_pro" t ||
  strIn "AI.GENERATE(" t ||
  strIn "ML.GENERATE_EMBEDDING(" t ||
  (strIn "generate_insights_query" t && strIn "AI.GENERATE" t)

/-- Guard of the fix_sql_syntax.py loop body for one cell. -/
def fixSqlCellHit (cell : Cell) : Bool :=
  cell.cellType == "code" &&
    (match cell.source with
     | some src => fixSqlTrigger (String.join src)
     | none => false)

/-- Loop of fix_sql_syntax.py (lines 8-54): whole-cell replacement of
every hit cell by the template, with a count of replaced cells. -/
def fixSqlLoop : List Cell → List Cell × Nat
  | [] => ([], 0)
  | c :: cs =>
      let r := fixSqlLoop cs
      if fixSqlCellHit c then
        ({ c with source := some fixSqlTemplate } :: r.1, r.2 + 1)
      else
        (c :: r.1, r.2)

/-- Stored notebook file, as the patcher scripts see it: either valid
structured data that json.load parses into a Notebook, or malformed text
on which json.load raises. -/
inductive RawDoc where
  | wellFormed (nb : Notebook)
  | malformed (text : String)
deriving DecidableEq

/-- Result of json.load on the stored file. -/
def parseDoc : RawDoc → Option Notebook
  | .wellFormed nb => some nb
  | .malformed _ => none

/-- Whole run of final_fix.py as a transformer of the stored file.  The
script calls json.load first (line 5); if that raises, the script dies
before the output file is ever opened for writing (line 60), so the
store is untouched and a decode error propagates.  On success the
patched document is serialized back over the same path and fixed_count
is reported. -/
def finalFixScript (store : RawDoc) : RawDoc × Except String Nat :=
  match parseDoc store with
  | none => (store, .error "json decode error")
  | some nb =>
      let r := finalFixLoop nb.cells
      (.wellFormed { nb with cells := r.1 }, .ok r.2)

/-- Whole run of fix_sql_syntax.py as a transformer of the stored file,
with the same load-then-write structure as final_fix.py. -/
def fixSqlScript (store : RawDoc) : RawDoc × Except String Nat :=
  match parseDoc store with
  | none => (store, .error "json decode error")
  | some nb =>
      let r := fixSqlLoop nb.cells
      (.wellFormed { nb with cells := r.1 }, .ok r.2)

/-- First replacement source of update_to_public_data.py (setup cell,
lines 16-59), transcribed byte for byte with x7b/x7d brace escapes and
x27 apostrophe escapes. -/
def updTemplate1 : List String :=
  ["# Setup and Configuration\n",
   "import pandas as pd\n",
   "import numpy as np\n",
   "import json\n",
   "from datetime import datetime, timedelta\n",
   "import warnings\n",
   "warnings.filterwarnings(\x27ignore\x27)\n",
   "\n",
   "# BigQuery setup with service account authentication\n",
   "from google.cloud import bigquery\n",
   "from google.oauth2 import service_account\n",
   "\n",
   "# Path to your service account key\n",
   "key_path = r\"C:\\Users\\msaya\\Downloads\\analog-daylight-469011-e9-b89b0752ca82.json\"\n",
   "\n",
   "print(\"Loading BigQuery credentials...\")\n",
   "\n",
   "# Create credentials object\n",
   "credentials = service_account.Credentials.from_service_account_file(key_path)\n",
   "\n",
   "# Initialize BigQuery client with credentials\n",
   "client = bigquery.Client(credentials=credentials, project=credentials.project_id)\n",
   "\n",
   "project_id = credentials.project_id\n",
   "\n",
   "# Use BigQuery public datasets for real data\n",
   "public_project = \x27bigquery-public-data\x27\n",
   "dataset_id = \x27samples\x27  # Using samples dataset\n",
   "\n",
   "print(\"BigQuery client initialized successfully!\")\n",
   "print(f\"Your Project ID: \x7bproject_id\x7d\")\n",
   "print(f\"Using Public Dataset: \x7bpublic_project\x7d.\x7bdataset_id\x7d\")\n",
   "print(f\"Started: \x7bdatetime.now()\x7d\")\n",
   "print(\"BigQuery AI implementation ready with REAL public data!\")\n",
   "\n",
   "# Let\x27s explore what public datasets are available\n",
   "print(\"\\n🔍 Exploring available public datasets...\")\n",
   "public_client = bigquery.Client(project=public_project)\n",
   "datasets = list(public_client.list_datasets(max_results=10))\n",
   "print(f\"Found \x7blen(datasets)\x7d public datasets (showing first 10):\")\n",
   "for dataset in datasets[:5]:\n",
   "    print(f\"  📊 \x7bdataset.dataset_id\x7d\")"]

/-- Second replacement source of update_to_public_data.py (data cell,
lines 68-103), transcribed byte for byte. -/
def updTemplate2 : List String :=
  ["# Explore real BigQuery public datasets\n",
   "print(\"🔍 Exploring BigQuery public datasets for real data...\")\n",
   "\n",
   "# Let\x27s use the Wikipedia dataset - it has real text data perfect for AI analysis\n",
   "wikipedia_query = f\"\"\"\n",
   "SELECT \n",
   "  title,\n",
   "  text,\n",
   "  datestamp,\n",
   "  LENGTH(text) as text_length,\n",
   "  CASE \n",
   "    WHEN LENGTH(text) > 5000 THEN \x27long_article\x27\n",
   "    WHEN LENGTH(text) > 1000 THEN \x27medium_article\x27\n",
   "    ELSE \x27short_article\x27\n",
   "  END as article_type\n",
   "FROM `bigquery-public-data.samples.wikipedia`\n",
   "WHERE LENGTH(text) > 500  -- Get articles with substantial content\n",
   "ORDER BY RAND()\n",
   "LIMIT 10\n",
   "\"\"\"\n",
   "\n",
   "print(\"📊 Querying Wikipedia dataset for real articles...\")\n",
   "wiki_df = client.query(wikipedia_query).to_dataframe()\n",
   "print(f\"✅ Found \x7blen(wiki_df)\x7d Wikipedia articles!\")\n",
   "\n",
   "# Display sample data\n",
   "print(\"\\n📄 Sample Wikipedia Articles:\")\n",
   "for _, row in wiki_df.head(3).iterrows():\n",
   "    print(f\"\\n🔸 \x7brow[\x27title\x27]\x7d\")\n",
   "    print(f\"   📅 Date: \x7brow[\x27datestamp\x27]\x7d\")\n",
   "    print(f\"   📏 Length: \x7brow[\x27text_length\x27]:,\x7d characters\")\n",
   "    print(f\"   📝 Preview: \x7brow[\x27text\x27][:150]\x7d...\")\n",
   "\n",
   "print(f\"\\n✅ Successfully loaded \x7blen(wiki_df)\x7d real Wikipedia articles for AI analysis!\")"]

/-- Third replacement source of update_to_public_data.py (analysis cell,
lines 112-188), transcribed byte for byte. -/
def updTemplate3 : List String :=
  ["# Real AI Analysis on Wikipedia Data\n",
   "print(\"🧠 Analyzing real Wikipedia articles...\")\n",
   "\n",
   "# Query to analyze Wikipedia articles with simulated AI insights\n",
   "analysis_query = f\"\"\"\n",
   "WITH article_analysis AS (\n",
   "  SELECT \n",
   "    title,\n",
   "    text,\n",
   "    datestamp,\n",
   "    LENGTH(text) as text_length,\n",
   "    \n",
   "    -- Simulated AI sentiment analysis\n",
   "    CASE \n",
   "      WHEN REGEXP_CONTAINS(LOWER(text), r\x27(great|excellent|amazing|wonderful|success)\x27) THEN \x27positive\x27\n",
   "      WHEN REGEXP_CONTAINS(LOWER(text), r\x27(terrible|awful|disaster|failure|problem)\x27) THEN \x27negative\x27\n",
   "      ELSE \x27neutral\x27\n",
   "    END as sentiment,\n",
   "    \n",
   "    -- Simulated topic classification\n",
   "    CASE \n",
   "      WHEN REGEXP_CONTAINS(LOWER(text), r\x27(science|research|study|experiment)\x27) THEN \x27science\x27\n",
   "      WHEN REGEXP_CONTAINS(LOWER(text), r\x27(history|historical|ancient|century)\x27) THEN \x27history\x27\n",
   "      WHEN REGEXP_CONTAINS(LOWER(text), r\x27(technology|computer|software|digital)\x27) THEN \x27technology\x27\n",
   "      WHEN REGEXP_CONTAINS(LOWER(text), r\x27(art|music|culture|creative)\x27) THEN \x27culture\x27\n",
   "      ELSE \x27general\x27\n",
   "    END as topic_category,\n",
   "    \n",
   "    -- Simulated complexity score\n",
   "    CASE \n",
   "      WHEN LENGTH(text) > 5000 THEN RAND() * 0.3 + 0.7  -- High complexity\n",
   "      WHEN LENGTH(text) > 2000 THEN RAND() * 0.4 + 0.4  -- Medium complexity\n",
   "      ELSE RAND() * 0.5 + 0.1  -- Low complexity\n",
   "    END as complexity_score\n",
   "    \n",
   "  FROM `bigquery-public-data.samples.wikipedia`\n",
   "  WHERE LENGTH(text) > 1000\n",
   "  ORDER BY RAND()\n",
   "  LIMIT 15\n",
   ")\n",
   "SELECT \n",
   "  title,\n",
   "  topic_category,\n",
   "  sentiment,\n",
   "  ROUND(complexity_score, 3) as complexity_score,\n",
   "  text_length,\n",
   "  datestamp,\n",
   "  SUBSTR(text, 1, 200) as text_preview\n",
   "FROM article_analysis\n",
   "ORDER BY complexity_score DESC\n",
   "\"\"\"\n",
   "\n",
   "print(\"📊 Running AI analysis on real Wikipedia data...\")\n",
   "results_df = client.query(analysis_query).to_dataframe()\n",
   "print(f\"✅ Analyzed \x7blen(results_df)\x7d real Wikipedia articles!\")\n",
   "\n",
   "# Display results with AI insights\n",
   "print(\"\\n🧠 AI Analysis Results:\")\n",
   "for _, row in results_df.head(5).iterrows():\n",
   "    print(f\"\\n📄 \x7brow[\x27title\x27]\x7d\")\n",
   "    print(f\"   🏷\uFE0F Topic: \x7brow[\x27topic_category\x27].upper()\x7d\")\n",
   "    print(f\"   😊 Sentiment: \x7brow[\x27sentiment\x27].upper()\x7d\")\n",
   "    print(f\"   🧮 Complexity: \x7brow[\x27complexity_score\x27]:.3f\x7d\")\n",
   "    print(f\"   📏 Length: \x7brow[\x27text_length\x27]:,\x7d chars\")\n",
   "    print(f\"   📝 Preview: \x7brow[\x27text_preview\x27]\x7d...\")\n",
   "\n",
   "# Summary statistics\n",
   "print(\"\\n📊 ANALYSIS SUMMARY:\")\n",
   "print(f\"Total Articles Analyzed: \x7blen(results_df)\x7d\")\n",
   "print(f\"Average Complexity Score: \x7bresults_df[\x27complexity_score\x27].mean():.3f\x7d\")\n",
   "print(f\"Most Common Topic: \x7bresults_df[\x27topic_category\x27].mode().iloc[0].upper()\x7d\")\n",
   "print(f\"Sentiment Distribution:\")\n",
   "sentiment_counts = results_df[\x27sentiment\x27].value_counts()\n",
   "for sentiment, count in sentiment_counts.items():\n",
   "    print(f\"  \x7bsentiment.upper()\x7d: \x7bcount\x7d articles\")"]

/-- First trigger of the update_to_public_data.py if/elif chain
(line 13). -/
def updTrig1 (t : String) : Bool :=
  strIn "dataset_id = " t && strIn "enterprise_knowledge_ai" t

/-- Second trigger of the update_to_public_data.py if/elif chain
(line 65). -/
def updTrig2 (t : String) : Bool :=
  strIn "CREATE OR REPLACE TABLE" t && strIn "enterprise_documents" t

/-- Third trigger of the update_to_public_data.py if/elif chain
(line 109). -/
def updTrig3 (t : String) : Bool :=
  strIn "demo_query" t || strIn "generate_insights_query" t

/-- Per-cell body of the update_to_public_data.py loop (lines 8-191): a
code cell with a source key is matched against the three triggers in
if/elif order, and the first trigger that fires replaces the whole
source with its template; later triggers are not consulted. -/
def updateCell (cell : Cell) : Cell :=
  if cell.cellType == "code" then
    match cell.source with
    | none => cell
    | some src =>
        let t := String.join src
        if updTrig1 t then { cell with source := some updTemplate1 }
        else if updTrig2 t then { cell with source := some updTemplate2 }
        else if updTrig3 t then { cell with source := some updTemplate3 }
        else cell
  else cell

/-- Body of the InsightRequest pydantic model: query, optional
user_role, optional free-form context (kept opaque). -/
structure InsightRequest where
  query : String
  userRole : Option String
  context : Option String
deriving DecidableEq

/-- Body of the InsightResponse pydantic model.  Scores are rationals in
place of Python floats; the timestamp is kept as its rendered text. -/
structure InsightResponse where
  insightId : String
  content : String
  confidenceScore : ℚ
  businessImpactScore : ℚ
  generatedTimestamp : String
  sources : List String
deriving DecidableEq

/-- Body of the ForecastRequest pydantic model (defaults 30 and 0.95 at
the REST surface; the confidence float is modelled as a rational). -/
structure ForecastRequest where
  metricName : String
  horizonDays : Int
  confidenceLevel : ℚ
deriving DecidableEq

/-- One element of ForecastResponse.forecast_values: the dict built at
main.py lines 210-213 (isoformat timestamp text and float value). -/
structure FvPoint where
  timestamp : String
  value : ℚ
deriving DecidableEq

/-- One element of ForecastResponse.confidence_intervals: the dict built
at main.py lines 214-218. -/
structure CiPoint where
  timestamp : String
  lower : ℚ
  upper : ℚ
deriving DecidableEq

/-- Body of the ForecastResponse pydantic model. -/
structure ForecastResponse where
  metricName : String
  forecastValues : List FvPoint
  confidenceIntervals : List CiPoint
  strategicRecommendations : String
deriving DecidableEq

/-- Body of the UserPreferences pydantic model. -/
structure UserPreferences where
  userId : String
  role : String
  departments : List String
  notificationPrefs : List (String × Bool)
  priorityTopics : List String
deriving DecidableEq

/-- Identity returned by get_current_user on success. -/
structure AuthUser where
  userId : String
  role : String
deriving DecidableEq

/-- Exceptions that can escape a handler body: a fastapi HTTPException
(status and detail) or an error raised while talking to the BigQuery
client, abstracted to its message text. -/
inductive PyExc where
  | httpError (status : Nat) (detail : String)
  | engineError (msg : String)
deriving DecidableEq

/-- Message text used when an exception is interpolated into a log line,
modelling the Python expression str(e).  For an engine error this is its
message; for an HTTPException the detail text stands in for the exact
Python rendering, which no claim depends on. -/
def excMessage : PyExc → String
  | .httpError _ d => d
  | .engineError m => m

/-- Embedding of get_current_user (main.py lines 70-75): the bearer token
string delivered by the HTTPBearer dependency is checked for falsiness
(only the empty string is falsy), rejected as 401, and otherwise mapped
to the fixed demo identity. -/
def getCurrentUser (token : String) : Except (Nat × String) AuthUser :=
  if token = "" then .error (401, "Invalid authentication")
  else .ok ⟨"demo_user", "analyst"⟩

/-- One row of the insight_generation query result, typed as the handler
reads it. -/
structure InsightRow where
  insightId : String
  generatedInsight : String
  confidenceScore : ℚ
  businessImpactScore : ℚ
  generatedTimestamp : String
  sourceIds : List String
deriving DecidableEq

/-- One row of the forecast query result, typed as the handler reads it
(forecast_timestamp already in its isoformat text form). -/
structure ForecastRow where
  forecastTimestamp : String
  forecastValue : ℚ
  confidenceLevelLower : ℚ
  confidenceLevelUpper : ℚ
  recommendations : String
deriving DecidableEq

/-- Python expression request.user_role or current_user["role"]: the or
operator falls through on falsy values, and both None and the empty
string are falsy. -/
def pyOrRole (userRole : Option String) (fallback : String) : String :=
  match userRole with
  | none => fallback
  | some s => if s = "" then fallback else s

/-- Try block of generate_insight (main.py lines 88-147) given the engine
outcome: an engine error propagates as a raised exception; with rows, the
for loop returns an InsightResponse built from the first row; with zero
rows the loop body never runs and HTTPException 404 is raised. -/
def generateInsightTry (engine : Except String (List InsightRow)) :
    Except PyExc InsightResponse :=
  match engine with
  | .error m => .error (.engineError m)
  | .ok [] => .error (.httpError 404 "No relevant insights found")
  | .ok (row :: _) =>
      .ok ⟨row.insightId, row.generatedInsight, row.confidenceScore,
           row.businessImpactScore, row.generatedTimestamp, row.sourceIds⟩

/-- Handler generate_insight after its try/except (main.py lines 82-151).
The fastapi HTTPException class derives from Exception, so the clause
except Exception as e also catches the 404 raised on zero rows, logs
str(e), and re-raises the generic 500.  The second component is the list
of log lines written by logging.error. -/
def generateInsight (_req : InsightRequest) (_user : AuthUser)
    (engine : Except String (List InsightRow)) :
    Except (Nat × String) InsightResponse × List String :=
  match generateInsightTry engine with
  | .ok resp => (.ok resp, [])
  | .error e =>
      (.error (500, "Failed to generate insight"),
       ["Error generating insight: " ++ excMessage e])

/-- One iteration of the generate_forecast result loop (main.py lines
209-219): append one forecast point and one interval point built from the
row, and overwrite recommendations with the row value. -/
def forecastStep (acc : List FvPoint × List CiPoint × String)
    (row : ForecastRow) : List FvPoint × List CiPoint × String :=
  (acc.1 ++ [⟨row.forecastTimestamp, row.forecastValue⟩],
   acc.2.1 ++ [⟨row.forecastTimestamp, row.confidenceLevelLower, row.confidenceLevelUpper⟩],
   row.recommendations)

/-- Try block of generate_forecast (main.py lines 159-226) given the
engine outcome: an engine error propagates; otherwise the row loop folds
from the initial empty accumulators and the ForecastResponse is built
from the final accumulators.  Zero rows therefore yield an ok response
with empty sequences and empty recommendations. -/
def generateForecastTry (req : ForecastRequest)
    (engine : Except String (List ForecastRow)) :
    Except PyExc ForecastResponse :=
  match engine with
  | .error m => .error (.engineError m)
  | .ok rows =>
      let acc := rows.foldl forecastStep ([], [], "")
      .ok ⟨req.metricName, acc.1, acc.2.1, acc.2.2⟩

/-- Handler generate_forecast after its try/except (main.py lines
153-230), with log lines as second component. -/
def generateForecast (req : ForecastRequest)
    (engine : Except String (List ForecastRow)) :
    Except (Nat × String) ForecastResponse × List String :=
  match generateForecastTry req engine with
  | .ok resp => (.ok resp, [])
  | .error e =>
      (.error (500, "Failed to generate forecast"),
       ["Error generating forecast: " ++ excMessage e])

/-- One stored row of the personalized_insights query result: the
generated_insights record fields plus the relevance score the engine
computes for it via AI.GENERATE_DOUBLE. -/
structure StoredInsight where
  insightId : String
  content : String
  confidenceScore : ℚ
  businessImpactScore : ℚ
  generatedTimestamp : String
  relevanceScore : ℚ
deriving DecidableEq

/-- Ordering submitted to the engine by get_personalized_insights:
ORDER BY relevance_score DESC, business_impact_score DESC, read as: a may
come before b when the key pair of b is lexicographically at most the key
pair of a. -/
def rankedAbove (a b : StoredInsight) : Prop :=
  b.relevanceScore < a.relevanceScore ∨
    (b.relevanceScore = a.relevanceScore ∧
     b.businessImpactScore ≤ a.businessImpactScore)

instance : DecidableRel rankedAbove := fun a b => by
  unfold rankedAbove; infer_instance

instance : IsTotal StoredInsight rankedAbove := by
  constructor
  intro a b
  rcases lt_trichotomy a.relevanceScore b.relevanceScore with h | h | h
  · exact Or.inr (Or.inl h)
  · rcases le_total a.businessImpactScore b.businessImpactScore with hi | hi
    · exact Or.inr (Or.inr ⟨h, hi⟩)
    · exact Or.inl (Or.inr ⟨h.symm, hi⟩)
  · exact Or.inl (Or.inl h)

instance : IsTrans StoredInsight rankedAbove := by
  constructor
  intro a b c hab hbc
  rcases hab with h1 | ⟨h1, h1i⟩
  · rcases hbc with h2 | ⟨h2, _⟩
    · exact Or.inl (h2.trans h1)
    · exact Or.inl (h2 ▸ h1)
  · rcases hbc with h2 | ⟨h2, h2i⟩
    · exact Or.inl (h1 ▸ h2)
    · exact Or.inr ⟨h2.trans h1, h2i.trans h1i⟩

/-- Execution of the personalized insights statement by the external
engine, modelled from the SQL text the handler submits (main.py lines
239-259): the role-filtered, 7-day-windowed, scored rows (given here
already filtered, as the table argument) are returned sorted by
relevance_score descending then business_impact_score descending and
truncated by LIMIT to the bound limit parameter. -/
def personalizedEngineRows (table : List StoredInsight) (lim : Nat) :
    List StoredInsight :=
  (List.insertionSort rankedAbove table).take lim

/-- One dict appended per row by get_personalized_insights (main.py lines
272-280). -/
structure PersonalizedItem where
  insightId : String
  content : String
  confidenceScore : ℚ
  businessImpactScore : ℚ
  relevanceScore : ℚ
  generatedTimestamp : String
deriving DecidableEq

/-- Row-to-dict mapping of the get_personalized_insights result loop. -/
def itemOfRow (r : StoredInsight) : PersonalizedItem :=
  ⟨r.insightId, r.content, r.confidenceScore, r.businessImpactScore,
   r.relevanceScore, r.generatedTimestamp⟩

/-- Ordering of rankedAbove transported to the response dicts. -/
def itemRankedAbove (a b : PersonalizedItem) : Prop :=
  b.relevanceScore < a.relevanceScore ∨
    (b.relevanceScore = a.relevanceScore ∧
     b.businessImpactScore ≤ a.businessImpactScore)

/-- Response body of get_personalized_insights: the insights list and
total_count = len(insights). -/
structure PersonalizedResult where
  insights : List PersonalizedItem
  totalCount : Nat
deriving DecidableEq

/-- Handler get_personalized_insights (main.py lines 232-286): on an
engine failure the except clause logs and re-raises the generic 500;
otherwise the rows come back ordered and truncated per the submitted
statement and are mapped one dict per row. -/
def getPersonalizedInsights (table : List StoredInsight) (lim : Nat)
    (engineFailure : Option String) :
    Except (Nat × String) PersonalizedResult × List String :=
  match engineFailure with
  | some m =>
      (.error (500, "Failed to fetch personalized insights"),
       ["Error fetching personalized insights: " ++ m])
  | none =>
      let items := (personalizedEngineRows table lim).map itemOfRow
      (.ok ⟨items, items.length⟩, [])

/-- Dict assignment dashboard_data[row.data_type] = ... on an association
list: overwrite the value when the key is present, append otherwise. -/
def dictInsert (m : List (String × String)) (kv : String × String) :
    List (String × String) :=
  if m.any (fun p => p.1 == kv.1) then
    m.map (fun p => if p.1 == kv.1 then kv else p)
  else m ++ [kv]

/-- Handler get_dashboard_data (main.py lines 288-344): each returned row
assigns its parsed data under its data_type key; engine failures are
logged and wrapped as the generic 500. -/
def getDashboardData (engine : Except String (List (String × String))) :
    Except (Nat × String) (List (String × String)) × List String :=
  match engine with
  | .error m =>
      (.error (500, "Failed to fetch dashboard data"),
       ["Error fetching dashboard data: " ++ m])
  | .ok rows => (.ok (rows.foldl dictInsert []), [])

/-- Handler update_user_preferences (main.py lines 346-384): the INSERT
either succeeds, returning the fixed message, or the engine failure is
logged and wrapped as the generic 500. -/
def updateUserPreferences (_prefs : UserPreferences)
    (engine : Except String Unit) :
    Except (Nat × String) String × List String :=
  match engine with
  | .error m =>
      (.error (500, "Failed to update user preferences"),
       ["Error updating user preferences: " ++ m])
  | .ok _ => (.ok "User preferences updated successfully", [])

/-- Route POST /insights/generate: the Depends(get_current_user) argument
resolves before the handler body runs, so an authentication error is
returned without the handler body (and hence the engine) ever being
reached; the engine parameter is then irrelevant to the result. -/
def insightRoute (token : String) (req : InsightRequest)
    (engine : Except String (List InsightRow)) :
    Except (Nat × String) InsightResponse × List String :=
  match getCurrentUser token with
  | .error e => (.error e, [])
  | .ok user => generateInsight req user engine

/-- Route POST /forecasts/generate with the same dependency gating. -/
def forecastRoute (token : String) (req : ForecastRequest)
    (engine : Except String (List ForecastRow)) :
    Except (Nat × String) ForecastResponse × List String :=
  match getCurrentUser token with
  | .error e => (.error e, [])
  | .ok _ => generateForecast req engine

/-- Route GET /insights/personalized with the same dependency gating. -/
def personalizedRoute (token : String) (table : List StoredInsight)
    (lim : Nat) (engineFailure : Option String) :
    Except (Nat × String) PersonalizedResult × List String :=
  match getCurrentUser token with
  | .error e => (.error e, [])
  | .ok _ => getPersonalizedInsights table lim engineFailure

/-- Route GET /analytics/dashboard with the same dependency gating. -/
def dashboardRoute (token : String)
    (engine : Except String (List (String × String))) :
    Except (Nat × String) (List (String × String)) × List String :=
  match getCurrentUser token with
  | .error e => (.error e, [])
  | .ok _ => getDashboardData engine

/-- Route POST /users/preferences with the same dependency gating. -/
def preferencesRoute (token : String) (prefs : UserPreferences)
    (engine : Except String Unit) :
    Except (Nat × String) String × List String :=
  match getCurrentUser token with
  | .error e => (.error e, [])
  | .ok _ => updateUserPreferences prefs engine

/-- SQL text of generate_insight (main.py lines 90-125): the f-string
interpolates only the BIGQUERY_PROJECT environment value; no request
field appears in the text.  Transcribed byte for byte (apostrophes as
x27 escapes). -/
def insightSQL (proj : String) : String :=
  "\n        WITH semantic_search AS (\n          SELECT \n            knowledge_id,\n            content,\n            VECTOR_SEARCH(\n              TABLE `"
  ++ proj ++
  ".enterprise_ai.enterprise_knowledge_base`,\n              (SELECT ML.GENERATE_EMBEDDING(\n                MODEL `"
  ++ proj ++
  ".enterprise_ai.text_embedding_model`,\n                @query_text\n              )),\n              top_k => 5,\n              distance_type => \x27COSINE\x27\n            ) AS similarity_score\n          FROM `"
  ++ proj ++
  ".enterprise_ai.enterprise_knowledge_base`\n          WHERE access_permissions IS NULL OR @user_role IN UNNEST(access_permissions)\n        ),\n        insight_generation AS (\n          SELECT \n            GENERATE_UUID() as insight_id,\n            AI.GENERATE(\n              MODEL `"
  ++ proj ++
  ".enterprise_ai.gemini_model`,\n              CONCAT(\n                \x27Generate actionable business insight for: \x27, @query_text,\n                \x27 Based on context: \x27, STRING_AGG(content, \x27 | \x27)\n              )\n            ) AS generated_insight,\n            0.85 AS confidence_score,\n            0.75 AS business_impact_score,\n            CURRENT_TIMESTAMP() AS generated_timestamp,\n            ARRAY_AGG(knowledge_id) AS source_ids\n          FROM semantic_search\n          WHERE similarity_score > 0.7\n        )\n        SELECT * FROM insight_generation\n        "

/-- Query job submitted by generate_insight: the SQL text together with
the bound query parameters (main.py lines 127-132), where the query text
and the effective user role travel only as parameters. -/
def buildInsightQuery (proj : String) (req : InsightRequest)
    (user : AuthUser) : String × List (String × String) :=
  (insightSQL proj,
   [("query_text", req.query), ("user_role", pyOrRole req.userRole user.role)])

/-- Decimal digit characters of a natural number, most significant
first: the text str(n) produces for a nonnegative Python int. -/
def natDigitsText (n : Nat) : List Char :=
  if n = 0 then [Char.ofNat 48]
  else ((Nat.digits 10 n).map (fun d => Char.ofNat (48 + d))).reverse

/-- Text str(n) produces for a Python int: a minus sign followed by the
digits of the absolute value when negative, plain digits otherwise. -/
def intText (n : Int) : List Char :=
  if n < 0 then Char.ofNat 45 :: natDigitsText n.natAbs
  else natDigitsText n.toNat

/-- Text interpolated for the confidence_level float.  Python renders
the float via repr, an injective, space-free rendering; the model keeps
exactly those two properties, rendering the rational as numerator text,
a slash, and denominator text.  Only injectivity and the absence of the
characters space and open parenthesis are ever used. -/
def ratText (q : ℚ) : List Char :=
  intText q.num ++ Char.ofNat 47 :: natDigitsText q.den

/-- Fixed f-string text between the metric name and the horizon value in
the forecast SQL (backtick, comma, newline, indentation, STRUCT with its
open parenthesis). -/
def fcStruct : String := "`,\n            STRUCT("

/-- Fixed f-string text between the horizon value and the confidence
value in the forecast SQL. -/
def fcHorizonSep : String := " AS horizon, "

/-- Fixed head of the forecast SQL f-string (main.py lines 160-168) up to
the first interpolation, then the project value, then the text up to the
metric name interpolation. -/
def fcOpening (proj : String) : String :=
  "\n        WITH forecast_data AS (\n          SELECT \n            forecast_timestamp,\n            forecast_value,\n            confidence_level_lower,\n            confidence_level_upper\n          FROM ML.FORECAST(\n            MODEL `"
  ++ proj ++
  ".enterprise_ai.forecast_model_"

/-- Fixed tail of the forecast SQL f-string (main.py lines 169-194) from
just after the confidence value, around the second project interpolation,
to the end.  Transcribed byte for byte (apostrophes as x27 escapes,
trailing blanks of the source lines preserved). -/
def fcClosing (proj : String) : String :=
  " AS confidence_level)\n          )\n        ),\n        strategic_analysis AS (\n          SELECT \n            AI.GENERATE(\n              MODEL `"
  ++ proj ++
  ".enterprise_ai.gemini_model`,\n              CONCAT(\n                \x27Analyze forecast trends and provide strategic recommendations for metric: \x27,\n                @metric_name,\n                \x27 Forecast data: \x27, \n                STRING_AGG(\n                  CONCAT(\x27Date: \x27, CAST(forecast_timestamp AS STRING), \n                         \x27, Value: \x27, CAST(forecast_value AS STRING)), \n                  \x27 | \x27\n                )\n              )\n            ) AS recommendations\n          FROM forecast_data\n        )\n        SELECT \n          f.*,\n          s.recommendations\n        FROM forecast_data f\n        CROSS JOIN strategic_analysis s\n        "

/-- Request-dependent middle of the forecast SQL: metric name, the fixed
STRUCT text, the rendered horizon, the fixed separator, the rendered
confidence. -/
def forecastCore (req : ForecastRequest) : List Char :=
  req.metricName.data ++ fcStruct.data ++ intText req.horizonDays
    ++ fcHorizonSep.data ++ ratText req.confidenceLevel

/-- SQL text of generate_forecast (main.py lines 160-194): unlike the
insight SQL, the f-string embeds metric_name, horizon_days and
confidence_level of the request verbatim into the text (only metric_name
additionally travels as a bound parameter, for the CONCAT prompt). -/
def forecastSQL (proj : String) (req : ForecastRequest) : String :=
  fcOpening proj ++ String.mk (forecastCore req) ++ fcClosing proj

/-- Character class of rendered integers: decimal digits and the minus
sign. -/
def numChar (c : Char) : Bool := c.isDigit || c == Char.ofNat 45

/-- Right-to-left parse of a forecast core: the confidence text is the
maximal space-free suffix, the fixed separator is skipped, the horizon
text is the maximal numeric suffix before it, the fixed STRUCT text is
skipped, and the metric name is the remainder. -/
def parseCore (l : List Char) : List Char × List Char × List Char :=
  let r := l.reverse
  let fRev := r.takeWhile (fun c => !(c == ' '))
  let r1 := (r.drop fRev.length).drop fcHorizonSep.data.length
  let hRev := r1.takeWhile numChar
  let r2 := (r1.drop hRev.length).drop fcStruct.data.length
  (r2.reverse, hRev.reverse, fRev.reverse)

/-- Inverse of natDigitsText used to prove it injective. -/
def decodeNatText (l : List Char) : Nat :=
  Nat.ofDigits 10 ((l.map (fun c => c.toNat - 48)).reverse)

/-- Sample code cell matching the final_fix trigger (pandas import) and
the fix_sql trigger (AI.GENERATE call), used as concrete witness input. -/
def sampleHitCell : Cell :=
  ⟨"code", some ["import pandas as pd\n", "AI.GENERATE(\n"], "outputs"⟩

/-- Sample markdown cell matching no trigger, used as concrete witness
input. -/
def sampleMissCell : Cell := ⟨"markdown", some ["# summary notes\n"], "meta"⟩

/-- Sample code cell whose joined source matches all three
update_to_public_data triggers at once, used as concrete witness input. -/
def sampleTriCell : Cell :=
  ⟨"code",
   some ["dataset_id = enterprise_knowledge_ai\n",
         "CREATE OR REPLACE TABLE enterprise_documents\n",
         "demo_query\n"],
   "outputs"⟩

/-- Sample stored insight row with low scores, used as concrete witness
input. -/
def sampleInsightA : StoredInsight := ⟨"a", "alpha", 1, 1, "t1", 1⟩

/-- Sample stored insight row with high scores, used as concrete witness
input. -/
def sampleInsightB : StoredInsight := ⟨"b", "beta", 1, 2, "t2", 2⟩

theorem takeWhile_append_of_all {α} (p : α → Bool) :
    ∀ (l1 l2 : List α), (∀ a ∈ l1, p a = true) →
      (l1 ++ l2).takeWhile p = l1 ++ l2.takeWhile p
  | [], _, _ => rfl
  | a :: t, l2, h => by
      have ha : p a = true := h a (List.mem_cons_self a t)
      simp only [List.cons_append, List.takeWhile_cons, ha, if_true]
      rw [takeWhile_append_of_all p t l2 (fun x hx => h x (List.mem_cons_of_mem a hx))]

theorem takeWhile_append_nil {α} (p : α → Bool) (a : α) (t x : List α)
    (h : (a :: t).takeWhile p = []) : ((a :: t) ++ x).takeWhile p = [] := by
  cases hpa : p a with
  | false => simp [List.takeWhile_cons, hpa]
  | true => simp [List.takeWhile_cons, hpa] at h

theorem map_id_of_mem {α} (l : List α) (h : α → α) (hh : ∀ a ∈ l, h a = a) :
    l.map h = l := by
  induction l with
  | nil => rfl
  | cons a t ih =>
      simp only [List.map_cons, hh a (List.mem_cons_self a t)]
      rw [ih (fun x hx => hh x (List.mem_cons_of_mem a hx))]

theorem charDigit_toNat {d : Nat} (hd : d < 10) :
    (Char.ofNat (48 + d)).toNat = 48 + d := by
  interval_cases d <;> decide

theorem charDigit_isDigit {d : Nat} (hd : d < 10) :
    (Char.ofNat (48 + d)).isDigit = true := by
  interval_cases d <;> decide

theorem natDigitsText_all_digit (n : Nat) :
    ∀ c ∈ natDigitsText n, c.isDigit = true := by
  intro c hc
  unfold natDigitsText at hc
  by_cases h : n = 0
  · simp [h] at hc
    subst hc
    decide
  · rw [if_neg h] at hc
    rw [List.mem_reverse, List.mem_map] at hc
    obtain ⟨d, hd, rfl⟩ := hc
    exact charDigit_isDigit (Nat.digits_lt_base (by norm_num) hd)

theorem decode_natDigitsText (n : Nat) : decodeNatText (natDigitsText n) = n := by
  by_cases h : n = 0
  · subst h; decide
  · unfold natDigitsText decodeNatText
    rw [if_neg h, List.map_reverse, List.reverse_reverse, List.map_map]
    rw [map_id_of_mem _ _ (fun d hd => ?_), Nat.ofDigits_digits]
    have hlt : d < 10 := Nat.digits_lt_base (by norm_num) hd
    simp [Function.comp, charDigit_toNat hlt]

theorem natDigitsText_inj {m n : Nat}
    (h : natDigitsText m = natDigitsText n) : m = n := by
  have h2 := congrArg decodeNatText h
  rwa [decode_natDigitsText, decode_natDigitsText] at h2

theorem natDigitsText_ne_nil (n : Nat) : natDigitsText n ≠ [] := by
  unfold natDigitsText
  by_cases h : n = 0
  · simp [h]
  · rw [if_neg h]
    intro heq
    rw [List.reverse_eq_nil_iff, List.map_eq_nil_iff] at heq
    exact Nat.digits_ne_nil_iff_ne_zero.mpr h heq

theorem intText_all_num (n : Int) : ∀ c ∈ intText n, numChar c = true := by
  intro c hc
  unfold intText at hc
  by_cases h : n < 0
  · rw [if_pos h] at hc
    rcases List.mem_cons.mp hc with rfl | hc2
    · decide
    · simp [numChar, natDigitsText_all_digit _ c hc2]
  · rw [if_neg h] at hc
    simp [numChar, natDigitsText_all_digit _ c hc]

theorem intText_inj {a b : Int} (h : intText a = intText b) : a = b := by
  unfold intText at h
  by_cases ha : a < 0 <;> by_cases hb : b < 0
  · rw [if_pos ha, if_pos hb] at h
    have h2 := natDigitsText_inj (List.tail_eq_of_cons_eq h)
    omega
  · rw [if_pos ha, if_neg hb] at h
    have hmem : Char.ofNat 45 ∈ natDigitsText b.toNat :=
      h ▸ List.mem_cons_self _ _
    have := natDigitsText_all_digit _ _ hmem
    exact absurd this (by decide)
  · rw [if_neg ha, if_pos hb] at h
    have hmem : Char.ofNat 45 ∈ natDigitsText a.toNat :=
      h.symm ▸ List.mem_cons_self _ _
    have := natDigitsText_all_digit _ _ hmem
    exact absurd this (by decide)
  · rw [if_neg ha, if_neg hb] at h
    have h2 := natDigitsText_inj h
    omega

theorem digit_ne_space {c : Char} (h : c.isDigit = true) : (c == ' ') = false := by
  cases heq : (c == ' ') with
  | false => rfl
  | true =>
      rw [beq_iff_eq] at heq
      subst heq
      exact absurd h (by decide)

theorem numChar_ne_space {c : Char} (h : numChar c = true) : (c == ' ') = false := by
  unfold numChar at h
  rcases Bool.or_eq_true_iff.mp h with hd | hm
  · exact digit_ne_space hd
  · rw [beq_iff_eq] at hm
    subst hm
    decide

theorem ratText_ne_space (q : ℚ) : ∀ c ∈ ratText q, (c == ' ') = false := by
  intro c hc
  unfold ratText at hc
  rcases List.mem_append.mp hc with h1 | h2
  · exact numChar_ne_space (intText_all_num _ _ h1)
  · rcases List.mem_cons.mp h2 with rfl | h3
    · decide
    · exact digit_ne_space (natDigitsText_all_digit _ _ h3)

theorem sep_split {α} [DecidableEq α] (sep : α) :
    ∀ (a c b d : List α), sep ∉ a → sep ∉ c →
      a ++ sep :: b = c ++ sep :: d → a = c ∧ b = d := by
  intro a
  induction a with
  | nil =>
      intro c b d _ hc h
      cases c with
      | nil => simpa using h
      | cons y t =>
          rw [List.nil_append, List.cons_append, List.cons_eq_cons] at h
          cases h.1
          exact absurd (List.mem_cons_self _ _) hc
  | cons x xs ih =>
      intro c b d ha hc h
      cases c with
      | nil =>
          rw [List.nil_append, List.cons_append, List.cons_eq_cons] at h
          cases h.1
          exact absurd (List.mem_cons_self _ _) ha
      | cons y t =>
          rw [List.cons_append, List.cons_append, List.cons_eq_cons] at h
          obtain ⟨rfl, h2⟩ := h
          obtain ⟨h3, h4⟩ := ih t b d
            (fun hm => ha (List.mem_cons_of_mem _ hm))
            (fun hm => hc (List.mem_cons_of_mem _ hm)) h2
          exact ⟨by rw [h3], h4⟩

theorem ratText_inj {p q : ℚ} (h : ratText p = ratText q) : p = q := by
  unfold ratText at h
  have hp : Char.ofNat 47 ∉ intText p.num := fun hm =>
    absurd (intText_all_num _ _ hm) (by decide)
  have hq : Char.ofNat 47 ∉ intText q.num := fun hm =>
    absurd (intText_all_num _ _ hm) (by decide)
  obtain ⟨h1, h2⟩ := sep_split _ _ _ _ _ hp hq h
  exact Rat.ext (intText_inj h1) (natDigitsText_inj h2)

theorem parseCore_glue (m H F : List Char)
    (hH : ∀ c ∈ H, numChar c = true)
    (hF : ∀ c ∈ F, (c == ' ') = false) :
    parseCore (m ++ (fcStruct.data ++ (H ++ (fcHorizonSep.data ++ F)))) = (m, H, F) := by
  have hrev : (m ++ (fcStruct.data ++ (H ++ (fcHorizonSep.data ++ F)))).reverse
      = F.reverse ++ (fcHorizonSep.data.reverse ++ (H.reverse ++ (fcStruct.data.reverse ++ m.reverse))) := by
    simp [List.reverse_append, List.append_assoc]
  have hsep2nil : ((fcHorizonSep.data.reverse) ++ (H.reverse ++ (fcStruct.data.reverse ++ m.reverse))).takeWhile (fun c => !(c == ' ')) = [] := by
    have h0 : (fcHorizonSep.data.reverse).takeWhile (fun c => !(c == ' ')) = [] := by decide
    cases hsr : fcHorizonSep.data.reverse with
    | nil => exact absurd hsr (by decide)
    | cons a t =>
        rw [hsr] at h0
        exact takeWhile_append_nil _ a t _ h0
  have hW1 : (F.reverse ++ (fcHorizonSep.data.reverse ++ (H.reverse ++ (fcStruct.data.reverse ++ m.reverse)))).takeWhile (fun c => !(c == ' '))
      = F.reverse := by
    rw [takeWhile_append_of_all _ _ _ (fun c hc => by
      rw [hF c (List.mem_reverse.mp hc)]; rfl)]
    rw [hsep2nil, List.append_nil]
  have hsep1nil : ((fcStruct.data.reverse) ++ m.reverse).takeWhile numChar = [] := by
    have h0 : (fcStruct.data.reverse).takeWhile numChar = [] := by decide
    cases hsr : fcStruct.data.reverse with
    | nil => exact absurd hsr (by decide)
    | cons a t =>
        rw [hsr] at h0
        exact takeWhile_append_nil _ a t _ h0
  have hW2 : (H.reverse ++ (fcStruct.data.reverse ++ m.reverse)).takeWhile numChar
      = H.reverse := by
    rw [takeWhile_append_of_all _ _ _ (fun c hc => hH c (List.mem_reverse.mp hc))]
    rw [hsep1nil, List.append_nil]
  simp only [parseCore]
  rw [hrev, hW1]
  rw [show F.reverse.length = F.reverse.length from rfl]
  rw [List.drop_left]
  rw [show fcHorizonSep.data.length = fcHorizonSep.data.reverse.length from (List.length_reverse _).symm]
  rw [List.drop_left, hW2, List.drop_left]
  rw [show fcStruct.data.length = fcStruct.data.reverse.length from (List.length_reverse _).symm]
  rw [List.drop_left]
  simp [List.reverse_reverse]

theorem string_data_inj {s t : String} (h : s.data = t.data) : s = t := by
  cases s
  cases t
  exact congrArg String.mk h

theorem forecastCore_assoc (req : ForecastRequest) :
    forecastCore req
      = req.metricName.data ++ (fcStruct.data ++ (intText req.horizonDays
          ++ (fcHorizonSep.data ++ ratText req.confidenceLevel))) := by
  simp [forecastCore, List.append_assoc]

theorem forecastSQL_inj (proj : String) {r1 r2 : ForecastRequest}
    (h : forecastSQL proj r1 = forecastSQL proj r2) : r1 = r2 := by
  have hd := congrArg String.data h
  simp only [forecastSQL, String.data_append] at hd
  have hmk : ∀ l : List Char, (String.mk l).data = l := fun _ => rfl
  rw [hmk, hmk] at hd
  have hcore : forecastCore r1 = forecastCore r2 := by
    have h1 := List.append_cancel_right hd
    exact List.append_cancel_left h1
  have hp1 := parseCore_glue r1.metricName.data (intText r1.horizonDays)
    (ratText r1.confidenceLevel) (intText_all_num _) (ratText_ne_space _)
  have hp2 := parseCore_glue r2.metricName.data (intText r2.horizonDays)
    (ratText r2.confidenceLevel) (intText_all_num _) (ratText_ne_space _)
  rw [← forecastCore_assoc] at hp1 hp2
  rw [hcore, hp2] at hp1
  obtain ⟨hm, hrest⟩ := Prod.mk.injEq .. ▸ hp1
  obtain ⟨hh, hf⟩ := Prod.mk.injEq .. ▸ hrest
  obtain ⟨m1, h1, c1⟩ := r1
  obtain ⟨m2, h2, c2⟩ := r2
  simp only at hm hh hf
  rw [string_data_inj hm.symm, intText_inj hh.symm, ratText_inj hf.symm]

theorem finalFixLoop_no_hit (cells : List Cell)
    (h : ∀ c ∈ cells, finalFixCellHit c = false) :
    finalFixLoop cells = (cells, 0) := by
  induction cells with
  | nil => rfl
  | cons c cs ih =>
      have hc := h c (List.mem_cons_self c cs)
      have ht := ih (fun x hx => h x (List.mem_cons_of_mem c hx))
      simp [finalFixLoop, hc, ht]

theorem finalFixLoop_fst_map (cells : List Cell) :
    (finalFixLoop cells).1 = cells.map (fun c =>
      if finalFixCellHit c then { c with source := some finalFixTemplate } else c) := by
  induction cells with
  | nil => rfl
  | cons c cs ih =>
      by_cases hc : finalFixCellHit c <;> simp [finalFixLoop, hc, ih]

theorem fixSqlLoop_fst_map (cells : List Cell) :
    (fixSqlLoop cells).1 = cells.map (fun c =>
      if fixSqlCellHit c then { c with source := some fixSqlTemplate } else c) := by
  induction cells with
  | nil => rfl
  | cons c cs ih =>
      by_cases hc : fixSqlCellHit c <;> simp [fixSqlLoop, hc, ih]

theorem forecastFold_lengths (rows : List ForecastRow) :
    ∀ (a : List FvPoint) (b : List CiPoint) (s : String),
      (rows.foldl forecastStep (a, b, s)).1.length = a.length + rows.length ∧
      (rows.foldl forecastStep (a, b, s)).2.1.length = b.length + rows.length := by
  induction rows with
  | nil => intro a b s; simp
  | cons row rest ih =>
      intro a b s
      have h2 := ih (a ++ [⟨row.forecastTimestamp, row.forecastValue⟩])
        (b ++ [⟨row.forecastTimestamp, row.confidenceLevelLower, row.confidenceLevelUpper⟩])
        row.recommendations
      simp only [List.foldl_cons, forecastStep] at h2 ⊢
      simp only [List.length_append, List.length_cons, List.length_nil] at h2 ⊢
      omega

/-- Claim C1, counterexample.  At the explicit zero-row engine outcome,
generate_insight surfaces the generic 500 transport-failure condition
(the 404 raised inside the try block is caught by the except Exception
clause and re-raised as 500), and generate_forecast returns an
empty-but-successful response; the claimed distinct 404 never reaches
the caller of either operation. -/
theorem claim_C1_counterexample :
    (generateInsight ⟨"revenue trends", some "executive", none⟩
        ⟨"demo_user", "analyst"⟩ (.ok [])).1
      = .error (500, "Failed to generate insight") ∧
    (generateForecast ⟨"revenue", 30, 1⟩ (.ok [])).1
      = .ok ⟨"revenue", [], [], ""⟩ :=
  ⟨rfl, rfl⟩

/-- Claim C1, amended.  A zero-qualifying-row engine result never yields
an empty-but-successful insight response, but the condition surfaced is
the generic 500 with the fixed failure detail, because the except
Exception clause swallows the HTTPException 404 raised by the zero-row
branch; the 404 detail survives only in the log line.  generate_forecast
on zero rows returns a successful response with empty forecast_values,
empty confidence_intervals and empty recommendations. -/
theorem claim_C1_amended (req : InsightRequest) (user : AuthUser)
    (freq : ForecastRequest) :
    (generateInsight req user (.ok [])).1
      = .error (500, "Failed to generate insight") ∧
    (generateInsight req user (.ok [])).2
      = ["Error generating insight: No relevant insights found"] ∧
    (generateForecast freq (.ok [])).1
      = .ok ⟨freq.metricName, [], [], ""⟩ :=
  ⟨rfl, rfl, rfl⟩

/-- Claim C2.  Every route other than the health probe, invoked with the
empty bearer credential, returns the 401 unauthorized error of
get_current_user; the result is a constant in the engine argument, so
the external engine is never consulted, and no log line is written. -/
theorem claim_C2_empty_token_unauthorized :
    (∀ req engine, insightRoute "" req engine
        = (.error (401, "Invalid authentication"), [])) ∧
    (∀ req engine, forecastRoute "" req engine
        = (.error (401, "Invalid authentication"), [])) ∧
    (∀ table lim engineFailure, personalizedRoute "" table lim engineFailure
        = (.error (401, "Invalid authentication"), [])) ∧
    (∀ engine, dashboardRoute "" engine
        = (.error (401, "Invalid authentication"), [])) ∧
    (∀ prefs engine, preferencesRoute "" prefs engine
        = (.error (401, "Invalid authentication"), [])) :=
  ⟨fun _ _ => rfl, fun _ _ => rfl, fun _ _ _ => rfl, fun _ => rfl,
   fun _ _ => rfl⟩

/-- Claim C4.  When no cell of a well-formed notebook matches the
final_fix trigger, the whole script run is a no-op: the stored document
equals the input document and the reported modified-cell count is 0. -/
theorem claim_C4_no_trigger_noop (nb : Notebook)
    (h : ∀ c ∈ nb.cells, finalFixCellHit c = false) :
    finalFixScript (.wellFormed nb) = (.wellFormed nb, .ok 0) := by
  have h2 := finalFixLoop_no_hit nb.cells h
  simp [finalFixScript, parseDoc, h2]

/-- Claim C4, witness at a concrete one-cell notebook with no matching
cell. -/
theorem claim_C4_witness :
    finalFixScript (.wellFormed ⟨[sampleMissCell], "nbformat"⟩)
      = (.wellFormed ⟨[sampleMissCell], "nbformat"⟩, .ok 0) :=
  claim_C4_no_trigger_noop ⟨[sampleMissCell], "nbformat"⟩ (by decide)

/-- Claim C5.  On a stored document that json.load cannot parse, both
patcher scripts abort with a parse error and leave the stored document
unchanged: the load happens before the file is reopened for writing, so
no partial write occurs. -/
theorem claim_C5_parse_failure_no_write (store : RawDoc)
    (h : parseDoc store = none) :
    finalFixScript store = (store, .error "json decode error") ∧
    fixSqlScript store = (store, .error "json decode error") := by
  constructor <;> simp [finalFixScript, fixSqlScript, h]

/-- Claim C5, witness at a concrete malformed document. -/
theorem claim_C5_witness :
    finalFixScript (.malformed "\x7b\"cells\": [")
        = (.malformed "\x7b\"cells\": [", .error "json decode error") ∧
    fixSqlScript (.malformed "\x7b\"cells\": [")
        = (.malformed "\x7b\"cells\": [", .error "json decode error") :=
  claim_C5_parse_failure_no_write (.malformed "\x7b\"cells\": [") rfl

/-- Claim C6.  For both generating operations, any two downstream engine
failures produce identical caller-visible results, namely the fixed
generic 500 detail of the operation, which does not depend on the
failure content; the original cause is written verbatim to the internal
log. -/
theorem claim_C6_generic_failure_wrapping (req : InsightRequest)
    (user : AuthUser) (freq : ForecastRequest) (m1 m2 : String) :
    ((generateInsight req user (.error m1)).1
        = (generateInsight req user (.error m2)).1 ∧
     (generateInsight req user (.error m1)).1
        = .error (500, "Failed to generate insight") ∧
     (generateInsight req user (.error m1)).2
        = ["Error generating insight: " ++ m1]) ∧
    ((generateForecast freq (.error m1)).1
        = (generateForecast freq (.error m2)).1 ∧
     (generateForecast freq (.error m1)).1
        = .error (500, "Failed to generate forecast") ∧
     (generateForecast freq (.error m1)).2
        = ["Error generating forecast: " ++ m1]) :=
  ⟨⟨rfl, rfl, rfl⟩, ⟨rfl, rfl, rfl⟩⟩

/-- Claim C3.  Both single-template patchers preserve the cell count;
every cell whose guard matches is replaced whole (its source becomes
exactly the canonical template of the script, all other fields kept),
and every cell whose guard does not match is returned identical, byte
for byte. -/
theorem claim_C3_whole_cell_replacement (cells : List Cell) (i : Nat)
    (h : i < cells.length) :
    ((finalFixLoop cells).1.length = cells.length ∧
     (finalFixLoop cells).1[i]? =
       some (if finalFixCellHit cells[i]
             then { cells[i] with source := some finalFixTemplate }
             else cells[i])) ∧
    ((fixSqlLoop cells).1.length = cells.length ∧
     (fixSqlLoop cells).1[i]? =
       some (if fixSqlCellHit cells[i]
             then { cells[i] with source := some fixSqlTemplate }
             else cells[i])) := by
  refine ⟨⟨?_, ?_⟩, ⟨?_, ?_⟩⟩
  · rw [finalFixLoop_fst_map]; simp
  · rw [finalFixLoop_fst_map, List.getElem?_map, List.getElem?_eq_getElem h]; rfl
  · rw [fixSqlLoop_fst_map]; simp
  · rw [fixSqlLoop_fst_map, List.getElem?_map, List.getElem?_eq_getElem h]; rfl

/-- Claim C3, witness at a concrete two-cell notebook, index 0. -/
theorem claim_C3_witness :
    ((finalFixLoop [sampleHitCell, sampleMissCell]).1.length
        = [sampleHitCell, sampleMissCell].length ∧
     (finalFixLoop [sampleHitCell, sampleMissCell]).1[0]? =
       some (if finalFixCellHit [sampleHitCell, sampleMissCell][0]
             then { [sampleHitCell, sampleMissCell][0] with
                      source := some finalFixTemplate }
             else [sampleHitCell, sampleMissCell][0])) ∧
    ((fixSqlLoop [sampleHitCell, sampleMissCell]).1.length
        = [sampleHitCell, sampleMissCell].length ∧
     (fixSqlLoop [sampleHitCell, sampleMissCell]).1[0]? =
       some (if fixSqlCellHit [sampleHitCell, sampleMissCell][0]
             then { [sampleHitCell, sampleMissCell][0] with
                      source := some fixSqlTemplate }
             else [sampleHitCell, sampleMissCell][0])) :=
  claim_C3_whole_cell_replacement [sampleHitCell, sampleMissCell] 0 (by decide)

/-- Claim C7.  Whenever generate_forecast returns a successful
ForecastResponse, its forecast_values and confidence_intervals have
equal length: the result loop appends exactly one element to each per
engine row. -/
theorem claim_C7_forecast_parallel_lengths (req : ForecastRequest)
    (engine : Except String (List ForecastRow)) (resp : ForecastResponse)
    (h : (generateForecast req engine).1 = .ok resp) :
    resp.forecastValues.length = resp.confidenceIntervals.length := by
  cases engine with
  | error m => simp [generateForecast, generateForecastTry] at h
  | ok rows =>
      simp only [generateForecast, generateForecastTry, Except.ok.injEq] at h
      subst h
      have hl := forecastFold_lengths rows [] [] ""
      show (rows.foldl forecastStep ([], [], "")).1.length
          = (rows.foldl forecastStep ([], [], "")).2.1.length
      rw [hl.1, hl.2]
      rfl

/-- Claim C7, witness at a concrete one-row engine result matching the
stub of the specification (value 100, interval 95 to 105). -/
theorem claim_C7_witness :
    ((⟨"revenue", [⟨"2025-01-01", 100⟩], [⟨"2025-01-01", 95, 105⟩],
        "scale up"⟩ : ForecastResponse).forecastValues.length
      = (⟨"revenue", [⟨"2025-01-01", 100⟩], [⟨"2025-01-01", 95, 105⟩],
        "scale up"⟩ : ForecastResponse).confidenceIntervals.length) :=
  claim_C7_forecast_parallel_lengths ⟨"revenue", 7, 1⟩
    (.ok [⟨"2025-01-01", 100, 95, 105, "scale up"⟩]) _ rfl

/-- Claim C9.  The update_to_public_data triggers are evaluated in fixed
if/elif priority order: the first trigger that matches decides the
replacement template regardless of the later triggers, a cell matching
no trigger is unchanged, and at most one replacement is ever applied. -/
theorem claim_C9_first_trigger_wins (cell : Cell) (src : List String)
    (hsrc : cell.source = some src) (hcode : cell.cellType = "code") :
    (updTrig1 (String.join src) = true →
      updateCell cell = { cell with source := some updTemplate1 }) ∧
    (updTrig1 (String.join src) = false → updTrig2 (String.join src) = true →
      updateCell cell = { cell with source := some updTemplate2 }) ∧
    (updTrig1 (String.join src) = false → updTrig2 (String.join src) = false →
      updTrig3 (String.join src) = true →
      updateCell cell = { cell with source := some updTemplate3 }) ∧
    (updTrig1 (String.join src) = false → updTrig2 (String.join src) = false →
      updTrig3 (String.join src) = false → updateCell cell = cell) := by
  obtain ⟨ct, osrc, rest⟩ := cell
  simp only at hsrc hcode
  subst hcode
  subst hsrc
  refine ⟨fun h1 => ?_, fun h1 h2 => ?_, fun h1 h2 h3 => ?_,
          fun h1 h2 h3 => ?_⟩
  · simp [updateCell, h1]
  · simp [updateCell, h1, h2]
  · simp [updateCell, h1, h2, h3]
  · simp [updateCell, h1, h2, h3]

/-- Claim C9, witness: a concrete cell matching all three triggers at
once is rewritten with the first template. -/
theorem claim_C9_witness :
    updateCell sampleTriCell
      = { sampleTriCell with source := some updTemplate1 } :=
  (claim_C9_first_trigger_wins sampleTriCell
    ["dataset_id = enterprise_knowledge_ai\n",
     "CREATE OR REPLACE TABLE enterprise_documents\n",
     "demo_query\n"] rfl rfl).1 (by decide)

/-- Claim C10.  The insight SQL text is one fixed string: it does not
depend on the request or on the caller identity (query text and user
role travel only in the bound parameter list), whereas two forecast
requests that differ in metric_name, horizon_days or confidence_level
always submit different SQL texts, because those fields are embedded
verbatim in the string. -/
theorem claim_C10_sql_parametrization (proj : String) :
    (∀ (r1 r2 : InsightRequest) (u1 u2 : AuthUser),
      (buildInsightQuery proj r1 u1).1 = (buildInsightQuery proj r2 u2).1) ∧
    (∀ r1 r2 : ForecastRequest, r1 ≠ r2 →
      forecastSQL proj r1 ≠ forecastSQL proj r2) := by
  constructor
  · intro _ _ _ _
    rfl
  · intro r1 r2 hne h
    exact hne (forecastSQL_inj proj h)

/-- Claim C10, witness: two concrete forecast requests differing only in
horizon produce different SQL texts. -/
theorem claim_C10_witness :
    forecastSQL "demo-project" ⟨"revenue", 30, 1⟩
      ≠ forecastSQL "demo-project" ⟨"revenue", 7, 1⟩ :=
  (claim_C10_sql_parametrization "demo-project").2 _ _ (by decide)

/-- Claim C8.  Every successful list_personalized_insights result is
sorted non-increasing by the pair (relevance_score,
business_impact_score) in lexicographic order and contains at most limit
elements; the handler maps the engine rows one to one, so the ORDER BY
and LIMIT of the submitted statement carry over to the response. -/
theorem claim_C8_personalized_sorted_truncated (table : List StoredInsight)
    (lim : Nat) (engineFailure : Option String) (res : PersonalizedResult)
    (log : List String)
    (h : getPersonalizedInsights table lim engineFailure = (.ok res, log)) :
    List.Sorted itemRankedAbove res.insights ∧ res.insights.length ≤ lim := by
  cases engineFailure with
  | some m => simp [getPersonalizedInsights] at h
  | none =>
      simp only [getPersonalizedInsights] at h
      injection h with h1 h2
      injection h1 with h1
      subst h1
      constructor
      · have hs : List.Sorted rankedAbove (List.insertionSort rankedAbove table) :=
          List.sorted_insertionSort rankedAbove table
        have ht : List.Sorted rankedAbove (personalizedEngineRows table lim) :=
          hs.sublist (List.take_sublist _ _)
        show List.Pairwise itemRankedAbove
          ((personalizedEngineRows table lim).map itemOfRow)
        rw [List.pairwise_map]
        exact ht.imp (fun hab => hab)
      · show ((personalizedEngineRows table lim).map itemOfRow).length ≤ lim
        rw [List.length_map]
        have h2 : ((List.insertionSort rankedAbove table).take lim).length ≤ lim := by
          rw [List.length_take]
          exact min_le_left _ _
        exact h2

/-- Claim C8, witness at a concrete two-row table with limit 1: the
higher-ranked row survives, sorted and truncated. -/
theorem claim_C8_witness :
    List.Sorted itemRankedAbove
        ([itemOfRow sampleInsightB] : List PersonalizedItem) ∧
    ([itemOfRow sampleInsightB] : List PersonalizedItem).length ≤ 1 :=
  claim_C8_personalized_sorted_truncated [sampleInsightA, sampleInsightB] 1 none
    ⟨[itemOfRow sampleInsightB], 1⟩ [] (by decide)

end BigQueryRepo
